import Mathlib

/-!
Verification development for the typed-handle core of an HDF5 binding
(object.rs, datatype.rs, space.rs, group.rs).

The native HDF5 library is modelled as an explicit registry state: every
native call the source makes (H5Iget_type via get_id_type, H5Iget_ref,
H5Tget_class, H5Tget_sign, H5Tcopy, H5Tequal, H5Screate_simple,
H5Sget_simple_extent_ndims, H5Sget_simple_extent_dims) becomes a Lean
function reading or threading a Registry value.  Machine integers hid_t
and hsize_t are modelled as Int and Nat; the model corresponds to a
little-endian 64-bit host (the cfg arms the build selects there).
The h5lock serialization macro is identity in this sequential model.
-/

namespace Hdf5

/-- Native identifier type hid_t (a C int-like handle key). -/
abbrev hid_t := Int

/-- The invalid-identifier sentinel H5I_INVALID_HID. -/
def H5I_INVALID_HID : hid_t := -1

/-- Native identifier classes from ffi h5i (H5I_type_t). -/
inductive H5I_type_t
  | H5I_BADID
  | H5I_FILE
  | H5I_GROUP
  | H5I_DATATYPE
  | H5I_DATASPACE
  | H5I_DATASET
  | H5I_ATTR
  | H5I_GENPROP_CLS
  | H5I_GENPROP_LST
deriving DecidableEq

/-- Rendering of an identifier class as the Rust Debug formatter prints it. -/
def idTypeName : H5I_type_t → String
  | .H5I_BADID => "H5I_BADID"
  | .H5I_FILE => "H5I_FILE"
  | .H5I_GROUP => "H5I_GROUP"
  | .H5I_DATATYPE => "H5I_DATATYPE"
  | .H5I_DATASPACE => "H5I_DATASPACE"
  | .H5I_DATASET => "H5I_DATASET"
  | .H5I_ATTR => "H5I_ATTR"
  | .H5I_GENPROP_CLS => "H5I_GENPROP_CLS"
  | .H5I_GENPROP_LST => "H5I_GENPROP_LST"

/-- Rendering of a slice of identifier classes as the Rust Debug formatter
prints it. -/
def idTypeListName (cs : List H5I_type_t) : String :=
  "[" ++ String.intercalate ", " (cs.map idTypeName) ++ "]"

/-- Native datatype classes from ffi h5t (H5T_class_t). -/
inductive H5T_class_t
  | H5T_NO_CLASS
  | H5T_INTEGER
  | H5T_FLOAT
  | H5T_TIME
  | H5T_STRING
  | H5T_BITFIELD
  | H5T_OPAQUE
  | H5T_COMPOUND
  | H5T_REFERENCE
  | H5T_ENUM
  | H5T_VLEN
  | H5T_ARRAY
  | H5T_NCLASSES
deriving DecidableEq

/-- Rendering of a datatype class as the Rust Debug formatter prints it. -/
def tClassName : H5T_class_t → String
  | .H5T_NO_CLASS => "H5T_NO_CLASS"
  | .H5T_INTEGER => "H5T_INTEGER"
  | .H5T_FLOAT => "H5T_FLOAT"
  | .H5T_TIME => "H5T_TIME"
  | .H5T_STRING => "H5T_STRING"
  | .H5T_BITFIELD => "H5T_BITFIELD"
  | .H5T_OPAQUE => "H5T_OPAQUE"
  | .H5T_COMPOUND => "H5T_COMPOUND"
  | .H5T_REFERENCE => "H5T_REFERENCE"
  | .H5T_ENUM => "H5T_ENUM"
  | .H5T_VLEN => "H5T_VLEN"
  | .H5T_ARRAY => "H5T_ARRAY"
  | .H5T_NCLASSES => "H5T_NCLASSES"

/-- Native byte orders (H5T_order_t). -/
inductive H5T_order_t
  | H5T_ORDER_ERROR
  | H5T_ORDER_LE
  | H5T_ORDER_BE
deriving DecidableEq

/-- Native sign conventions (H5T_sign_t). H5T_SGN_2 is the twos-complement
signed marker. -/
inductive H5T_sign_t
  | H5T_SGN_ERROR
  | H5T_SGN_NONE
  | H5T_SGN_2
deriving DecidableEq

/-- The logical content of an atomic datatype descriptor, as far as the
inspection calls the source uses can observe it. -/
structure TypeDescr where
  t_class : H5T_class_t
  order : H5T_order_t
  sign : H5T_sign_t
  precision : Nat
  byte_size : Nat
  bit_offset : Nat
deriving DecidableEq

/-- Descriptor stored for identifiers that are not datatypes. -/
def noDescr : TypeDescr :=
  ⟨.H5T_NO_CLASS, .H5T_ORDER_ERROR, .H5T_SGN_ERROR, 0, 0, 0⟩

/-- The native library registry state.  `registered` holds for every
identifier the registry knows (predefined locked descriptors included);
`user` holds only for unlocked user objects (the ones H5Iis_valid
accepts); `refcnt` is the reference count, negative meaning an error
code for the count query; `next` is the next fresh identifier. -/
structure Registry where
  registered : hid_t → Bool
  user : hid_t → Bool
  refcnt : hid_t → Int
  id_type : hid_t → H5I_type_t
  descr : hid_t → TypeDescr
  space_extent : hid_t → Option (List Nat × List Nat)
  next : hid_t

/-- Pointwise function update used for registry fields. -/
def upd {β : Type} (f : hid_t → β) (i : hid_t) (v : β) : hid_t → β :=
  fun j => if j = i then v else f j

/-- Allocate a fresh user identifier with the given class, descriptor and
dataspace extent; reference count starts at 1. -/
def Registry.alloc (r : Registry) (ty : H5I_type_t) (d : TypeDescr)
    (ext : Option (List Nat × List Nat)) : hid_t × Registry :=
  (r.next,
   { registered := upd r.registered r.next true
     user := upd r.user r.next true
     refcnt := upd r.refcnt r.next 1
     id_type := upd r.id_type r.next ty
     descr := upd r.descr r.next d
     space_extent := upd r.space_extent r.next ext
     next := r.next + 1 })

/-- Increment the registry reference count of one identifier. -/
def Registry.increfAt (r : Registry) (id : hid_t) : Registry :=
  { r with refcnt := upd r.refcnt id (r.refcnt id + 1) }

/-- A user identifier the registry currently accepts (is_valid_user_id in
handle.rs wraps H5Iis_valid, which accepts only unlocked user objects). -/
def is_valid_user_id (r : Registry) (id : hid_t) : Bool :=
  decide (0 < id) && r.user id

/-- Modelled from the spec: get_id_type lives in handle.rs, which is not
under src.  Per the spec, class inspection returns the native class tag of
a registered identifier and the bad-id tag on failure. -/
def get_id_type (r : Registry) (id : hid_t) : H5I_type_t :=
  if 0 < id ∧ r.registered id then r.id_type id else .H5I_BADID

/-- Native H5Iget_ref: the current reference count of a user identifier,
or a negative error code. -/
def H5Iget_ref (r : Registry) (id : hid_t) : Int :=
  if is_valid_user_id r id then r.refcnt id else -1

/-- The h5call wrapper around H5Iget_ref: a negative return value becomes
an error. -/
def h5call_H5Iget_ref (r : Registry) (id : hid_t) : Except String Int :=
  let v := H5Iget_ref r id
  if v < 0 then .error "H5Iget_ref failed" else .ok v

/-- Native H5Tget_class: the datatype class of a datatype identifier,
H5T_NO_CLASS on failure. -/
def H5Tget_class (r : Registry) (id : hid_t) : H5T_class_t :=
  if 0 < id ∧ r.registered id ∧ r.id_type id = .H5I_DATATYPE then
    (r.descr id).t_class
  else .H5T_NO_CLASS

/-- Native H5Tget_sign: the sign convention of a datatype identifier,
the error marker on failure. -/
def H5Tget_sign (r : Registry) (id : hid_t) : H5T_sign_t :=
  if 0 < id ∧ r.registered id ∧ r.id_type id = .H5I_DATATYPE then
    (r.descr id).sign
  else .H5T_SGN_ERROR

/-- Native H5Tcopy: copy a datatype descriptor into a fresh unlocked
identifier, returning a negative identifier on failure. -/
def H5Tcopy (r : Registry) (src : hid_t) : hid_t × Registry :=
  if 0 < src ∧ r.registered src ∧ r.id_type src = .H5I_DATATYPE then
    r.alloc .H5I_DATATYPE (r.descr src) none
  else (-1, r)

/-- Native H5Tequal wrapped in h5call: logical type equivalence of two
datatype identifiers (1 equal, 0 not equal), an error when either
identifier is not a registered datatype. -/
def h5call_H5Tequal (r : Registry) (a b : hid_t) : Except String Int :=
  if 0 < a ∧ r.registered a ∧ r.id_type a = .H5I_DATATYPE ∧
     0 < b ∧ r.registered b ∧ r.id_type b = .H5I_DATATYPE then
    .ok (if r.descr a = r.descr b then 1 else 0)
  else .error "H5Tequal failed"

/-!  Handle and the generic typed object wrapper (object.rs).  -/

/-- Modelled from the spec: Handle lives in handle.rs, which is not under
src.  A Handle owns exactly one native identifier. -/
structure Handle where
  h_id : hid_t
deriving DecidableEq

/-- Modelled from the spec: Handle construction (handle.rs is not under
src).  Per the spec it fails if the identifier is the invalid sentinel or
otherwise rejected by the registry, and on success the registry reference
count for the identifier is incremented by one, the Handle becoming the
exclusive tracker of that increment. -/
def Handle.new (id : hid_t) (r : Registry) : Except String Handle × Registry :=
  if is_valid_user_id r id then (.ok ⟨id⟩, r.increfAt id)
  else (.error "Invalid handle id", r)

/-- Modelled from the spec: Handle validity (handle.rs is not under src)
queries the registry for the current identifier rather than caching. -/
def Handle.is_valid (h : Handle) (r : Registry) : Bool :=
  is_valid_user_id r h.h_id

/-- AllowTypes from object.rs: the closed set of class matchers. -/
inductive AllowTypes
  | Any
  | Just (cls : H5I_type_t)
  | OneOf (cls : List H5I_type_t)
deriving DecidableEq

/-- Object from object.rs: a Handle paired with the capability detail
value. -/
structure Object (α : Type) where
  handle : Handle
  detail : α
deriving DecidableEq

/-- The ObjectType trait from object.rs as a capability record.  Every
capability implementation in the sources constructs its detail by reading
the registry only, so from_id takes the registry without threading it. -/
structure ObjectTypeImpl (α : Type) where
  allow_types : AllowTypes
  from_id : hid_t → Registry → Except String α
  type_name : String
  describe : Object α → Registry → String := fun _ _ => ""

/-- The body of the h5lock block in Object::from_id (object.rs lines
98-102): construct the capability detail, then acquire the Handle, then
pair them.  Performed only after the class pre-check. -/
def Object.construct {α : Type} (T : ObjectTypeImpl α) (id : hid_t)
    (r : Registry) : Except String (Object α) × Registry :=
  match T.from_id id r with
  | .error e => (.error e, r)
  | .ok detail =>
    match Handle.new id r with
    | (.error e, r') => (.error e, r')
    | (.ok handle, r') => (.ok ⟨handle, detail⟩, r')

/-- The class-mismatch message of the Just arm of Object::from_id. -/
def justMismatchMsg (name : String) (expected actual : H5I_type_t) : String :=
  "Invalid " ++ name ++ " id type: expected " ++ idTypeName expected ++
    ", got " ++ idTypeName actual

/-- The class-mismatch message of the OneOf arm of Object::from_id. -/
def oneOfMismatchMsg (name : String) (expected : List H5I_type_t)
    (actual : H5I_type_t) : String :=
  "Invalid " ++ name ++ " id type: expected one of " ++
    idTypeListName expected ++ ", got " ++ idTypeName actual

/-- Object::from_id (object.rs lines 85-103): pre-check the native class
of the identifier against the capability matcher, then run the h5lock
block constructing detail and Handle. -/
def Object.from_id {α : Type} (T : ObjectTypeImpl α) (id : hid_t)
    (r : Registry) : Except String (Object α) × Registry :=
  match T.allow_types with
  | .Just cls_id =>
    let idt := get_id_type r id
    if idt = cls_id then Object.construct T id r
    else (.error (justMismatchMsg T.type_name cls_id idt), r)
  | .OneOf cls_ids =>
    let idt := get_id_type r id
    if cls_ids.contains idt then Object.construct T id r
    else (.error (oneOfMismatchMsg T.type_name cls_ids idt), r)
  | .Any => Object.construct T id r

/-- Object::is_valid: delegate to the Handle. -/
def Object.is_valid {α : Type} (obj : Object α) (r : Registry) : Bool :=
  obj.handle.is_valid r

/-- Object::refcount (object.rs lines 116-125): the registry count when
the handle is valid and the count query returns a non-negative count, and
0 in every other case. -/
def Object.refcount {α : Type} (obj : Object α) (r : Registry) : Nat :=
  if obj.is_valid r then
    match h5call_H5Iget_ref r obj.handle.h_id with
    | .ok count => if 0 ≤ count then count.toNat else 0
    | .error _ => 0
  else 0

/-- The Debug rendering of Object (object.rs lines 25-39). -/
def Object.debug_fmt {α : Type} (T : ObjectTypeImpl α) (obj : Object α)
    (r : Registry) : String :=
  if ¬ obj.is_valid r then
    "<HDF5 " ++ T.type_name ++ ": invalid id>"
  else
    let desc := T.describe obj r
    if desc = "" then "<HDF5 " ++ T.type_name ++ ">"
    else "<HDF5 " ++ T.type_name ++ ": " ++ desc ++ ">"

/-- The ObjectType implementation for the unit capability (object.rs
lines 41-53): any class accepted. -/
def unitObjectType : ObjectTypeImpl Unit where
  allow_types := .Any
  from_id := fun _ _ => .ok ()
  type_name := "object"

/-!  The datatype subsystem (datatype.rs).  -/

/-- The detail value of a generic datatype object (datatype.rs, enum
DatatypeID): exactly Integer or Float. -/
inductive DatatypeID
  | Integer
  | Float
deriving DecidableEq

/-- The unit detail struct of the integer-datatype capability produced by
the def_atomic macro. -/
inductive IntegerDatatypeID
  | mk
deriving DecidableEq

/-- The unit detail struct of the float-datatype capability produced by
the def_atomic macro. -/
inductive FloatDatatypeID
  | mk
deriving DecidableEq

/-- Represents the HDF5 datatype object. -/
abbrev Datatype := Object DatatypeID

abbrev IntegerDatatype := Object IntegerDatatypeID

abbrev FloatDatatype := Object FloatDatatypeID

/-- The ObjectType implementation for DatatypeID (datatype.rs lines
172-192).  from_id dispatches on the native class: Integer and Float
succeed, the no-class and class-count placeholders produce the invalid
datatype class error, every other class the unsupported error naming
the actual class. -/
def datatypeObjectType : ObjectTypeImpl DatatypeID where
  allow_types := .Just .H5I_DATATYPE
  from_id := fun id r =>
    match H5Tget_class r id with
    | .H5T_INTEGER => .ok .Integer
    | .H5T_FLOAT => .ok .Float
    | .H5T_NO_CLASS => .error "Invalid datatype class"
    | .H5T_NCLASSES => .error "Invalid datatype class"
    | cls => .error ("Unsupported datatype: " ++ tClassName cls)
  type_name := "datatype"

/-- The ObjectType implementation for IntegerDatatypeID produced by
def_atomic (datatype.rs lines 43-74): class must be exactly integer. -/
def integerDatatypeObjectType : ObjectTypeImpl IntegerDatatypeID where
  allow_types := .Just .H5I_DATATYPE
  from_id := fun id r =>
    let cls := H5Tget_class r id
    if cls = .H5T_INTEGER then .ok .mk
    else .error ("Invalid datatype class: expected " ++
      tClassName .H5T_INTEGER ++ ", got " ++ tClassName cls)
  type_name := "integer datatype"

/-- The ObjectType implementation for FloatDatatypeID produced by
def_atomic (datatype.rs lines 43-71, 84): class must be exactly float. -/
def floatDatatypeObjectType : ObjectTypeImpl FloatDatatypeID where
  allow_types := .Just .H5I_DATATYPE
  from_id := fun id r =>
    let cls := H5Tget_class r id
    if cls = .H5T_FLOAT then .ok .mk
    else .error ("Invalid datatype class: expected " ++
      tClassName .H5T_FLOAT ++ ", got " ++ tClassName cls)
  type_name := "float datatype"

/-- The class view returned by Datatype::class (datatype.rs lines
194-197); the transmute in the source reinterprets the same handle under
the integer or float capability. -/
inductive DatatypeClass
  | Integer (dt : IntegerDatatype)
  | Float (dt : FloatDatatype)
deriving DecidableEq

/-- Datatype::class (datatype.rs lines 200-210): dispatch on the native
class of the wrapped identifier, with the same error split as
DatatypeID::from_id. -/
def Datatype.class (dt : Datatype) (r : Registry) :
    Except String DatatypeClass :=
  match H5Tget_class r dt.handle.h_id with
  | .H5T_INTEGER => .ok (.Integer ⟨dt.handle, .mk⟩)
  | .H5T_FLOAT => .ok (.Float ⟨dt.handle, .mk⟩)
  | .H5T_NO_CLASS => .error "Invalid datatype class"
  | .H5T_NCLASSES => .error "Invalid datatype class"
  | cls => .error ("Unsupported datatype: " ++ tClassName cls)

/-- IntegerDatatype::is_signed (datatype.rs lines 77-81): the sign
convention equals the twos-complement marker. -/
def IntegerDatatype.is_signed (dt : IntegerDatatype) (r : Registry) : Bool :=
  H5Tget_sign r dt.handle.h_id == .H5T_SGN_2

/-- PartialEq for Datatype (datatype.rs lines 215-219): native logical
type equality via H5Tequal, any failure of the check defaulting to 0
hence not equal. -/
def Datatype.eq (a b : Datatype) (r : Registry) : Bool :=
  (match h5call_H5Tequal r a.handle.h_id b.handle.h_id with
   | .ok v => v
   | .error _ => 0) == 1

/-!  Predefined descriptors and the native-scalar mapping table.  -/

/-- An atomic integer descriptor with offset 0. -/
def intDescr (order : H5T_order_t) (sign : H5T_sign_t)
    (bits bytes : Nat) : TypeDescr :=
  ⟨.H5T_INTEGER, order, sign, bits, bytes, 0⟩

/-- An atomic IEEE float descriptor with offset 0. -/
def floatDescr (order : H5T_order_t) (bits bytes : Nat) : TypeDescr :=
  ⟨.H5T_FLOAT, order, .H5T_SGN_ERROR, bits, bytes, 0⟩

/-- Identifier of the predefined little-endian signed 8-bit descriptor. -/
def H5T_STD_I8LE : hid_t := 1
def H5T_STD_I16LE : hid_t := 2
def H5T_STD_I32LE : hid_t := 3
def H5T_STD_I64LE : hid_t := 4
def H5T_STD_U8LE : hid_t := 5
def H5T_STD_U16LE : hid_t := 6
def H5T_STD_U32LE : hid_t := 7
def H5T_STD_U64LE : hid_t := 8
def H5T_IEEE_F32LE : hid_t := 9
def H5T_IEEE_F64LE : hid_t := 10

/-- Descriptors of the predefined read-only globals the mapping table
uses on a little-endian host. -/
def predefDescrAt : hid_t → TypeDescr := fun id =>
  if id = H5T_STD_I8LE then intDescr .H5T_ORDER_LE .H5T_SGN_2 8 1
  else if id = H5T_STD_I16LE then intDescr .H5T_ORDER_LE .H5T_SGN_2 16 2
  else if id = H5T_STD_I32LE then intDescr .H5T_ORDER_LE .H5T_SGN_2 32 4
  else if id = H5T_STD_I64LE then intDescr .H5T_ORDER_LE .H5T_SGN_2 64 8
  else if id = H5T_STD_U8LE then intDescr .H5T_ORDER_LE .H5T_SGN_NONE 8 1
  else if id = H5T_STD_U16LE then intDescr .H5T_ORDER_LE .H5T_SGN_NONE 16 2
  else if id = H5T_STD_U32LE then intDescr .H5T_ORDER_LE .H5T_SGN_NONE 32 4
  else if id = H5T_STD_U64LE then intDescr .H5T_ORDER_LE .H5T_SGN_NONE 64 8
  else if id = H5T_IEEE_F32LE then floatDescr .H5T_ORDER_LE 32 4
  else if id = H5T_IEEE_F64LE then floatDescr .H5T_ORDER_LE 64 8
  else noDescr

/-- The initial registry: the ten predefined little-endian descriptors
are registered locked (non-user) datatype identifiers; nothing else is
registered. -/
def initRegistry : Registry where
  registered := fun id => decide (1 ≤ id ∧ id ≤ 10)
  user := fun _ => false
  refcnt := fun id => if 1 ≤ id ∧ id ≤ 10 then 1 else -1
  id_type := fun id => if 1 ≤ id ∧ id ≤ 10 then .H5I_DATATYPE else .H5I_BADID
  descr := predefDescrAt
  space_extent := fun _ => none
  next := 100

/-- The native scalar types covered by the impl_atomic invocations in
datatype.rs (64-bit pointer width: usize and isize use the 64-bit
descriptors). -/
inductive ScalarType
  | bool | i8 | i16 | i32 | i64 | u8 | u16 | u32 | u64 | f32 | f64
  | usize | isize
deriving DecidableEq

/-- The predefined global each scalar type copies on a little-endian
host, per the impl_atomic table (datatype.rs lines 143-162). -/
def predefLE : ScalarType → hid_t
  | .bool => H5T_STD_U8LE
  | .i8 => H5T_STD_I8LE
  | .i16 => H5T_STD_I16LE
  | .i32 => H5T_STD_I32LE
  | .i64 => H5T_STD_I64LE
  | .u8 => H5T_STD_U8LE
  | .u16 => H5T_STD_U16LE
  | .u32 => H5T_STD_U32LE
  | .u64 => H5T_STD_U64LE
  | .f32 => H5T_IEEE_F32LE
  | .f64 => H5T_IEEE_F64LE
  | .usize => H5T_STD_U64LE
  | .isize => H5T_STD_I64LE

/-- ToDatatype::to_datatype for a scalar type (datatype.rs lines
118-141, little-endian arm): copy the matching predefined descriptor
(h5try checks the returned identifier), then build the Datatype object
through Object::from_id. -/
def to_datatype (t : ScalarType) (r : Registry) :
    Except String Datatype × Registry :=
  match H5Tcopy r (predefLE t) with
  | (nid, r') =>
    if nid < 0 then (.error "H5Tcopy failed", r')
    else Object.from_id datatypeObjectType nid r'

/-!  The Dimension trait and the Dataspace object (space.rs).  -/

/-- The unlimited-extent sentinel H5S_UNLIMITED, the all-ones 64-bit
hsize_t value. -/
def H5S_UNLIMITED : Nat := 2 ^ 64 - 1

/-- The Dimension trait from space.rs as a shape-capability record. -/
structure DimensionImpl (α : Type) where
  ndim : α → Nat
  dims : α → List Nat

/-- The default Dimension::size (space.rs lines 21-24): 1 for an empty
extent list, otherwise the left fold of multiplication over it. -/
def DimensionImpl.size {α : Type} (D : DimensionImpl α) (a : α) : Nat :=
  let dims := D.dims a
  if dims.isEmpty then 1 else dims.foldl (fun acc el => acc * el) 1

/-- The Dimension implementation for a bare scalar extent Ix (space.rs
lines 71-74). -/
def ixDimension : DimensionImpl Nat where
  ndim := fun _ => 1
  dims := fun x => [x]

/-- The Dimension implementation for Vec of extents (space.rs lines
32-35). -/
def vecDimension : DimensionImpl (List Nat) where
  ndim := fun v => v.length
  dims := fun v => v

/-- The Dimension implementation for the unit shape produced by the
impl_tuple macro base case (space.rs lines 43-48). -/
def unitDimension : DimensionImpl Unit where
  ndim := fun _ => 0
  dims := fun _ => []

/-- The Dimension implementation the impl_tuple macro produces for pairs
(space.rs lines 50-66): rank counts the components, dims reads the
components in order. -/
def pairDimension : DimensionImpl (Nat × Nat) where
  ndim := fun _ => 2
  dims := fun p => [p.1, p.2]

/-- Native H5Screate_simple wrapped in h5try.  Modelled from the spec:
the native creation call is an external collaborator; per the spec a
simple dataspace is created with the given current and maximum extents
and creation fails when any current extent is the unlimited sentinel
(current extents must be concrete). -/
def H5Screate_simple (r : Registry) (dims max_dims : List Nat) :
    Except String hid_t × Registry :=
  if dims.any (fun d => d = H5S_UNLIMITED) then
    (.error "current dimension must have a specific size", r)
  else
    match r.alloc .H5I_DATASPACE noDescr (some (dims, max_dims)) with
    | (nid, r') => (.ok nid, r')

/-- Native H5Sget_simple_extent_ndims wrapped in h5call: the rank of the
extent of a registered dataspace identifier, an error otherwise. -/
def h5call_extent_ndims (r : Registry) (id : hid_t) : Except String Int :=
  match (if 0 < id ∧ r.registered id then r.space_extent id else none) with
  | some ext => .ok (ext.1.length : Int)
  | none => .error "H5Sget_simple_extent_ndims failed"

/-- Native H5Sget_simple_extent_dims wrapped in h5call: the pair of
current and maximum extents of a registered dataspace identifier, an
error otherwise. -/
def h5call_extent_dims (r : Registry) (id : hid_t) :
    Except String (List Nat × List Nat) :=
  match (if 0 < id ∧ r.registered id then r.space_extent id else none) with
  | some ext => .ok ext
  | none => .error "H5Sget_simple_extent_dims failed"

/-- Dataspace::ndim (space.rs lines 145-147): h5call around the native
rank query, any failure collapsing to 0. -/
def Dataspace.ndim {α : Type} (obj : Object α) (r : Registry) : Nat :=
  match h5call_extent_ndims r obj.handle.h_id with
  | .ok v => v.toNat
  | .error _ => 0

/-- Dataspace::dims (space.rs lines 149-161): only query the extents
when the rank is positive, and return the empty vector when the rank is
0 or the extent query fails. -/
def Dataspace.dims {α : Type} (obj : Object α) (r : Registry) : List Nat :=
  let nd := Dataspace.ndim obj r
  if nd > 0 then
    match h5call_extent_dims r obj.handle.h_id with
    | .ok ext => ext.1
    | .error _ => []
  else []

/-- Dataspace::maxdims (space.rs lines 123-135): same guard shape as
dims, reading the maximum extents. -/
def Dataspace.maxdims {α : Type} (obj : Object α) (r : Registry) : List Nat :=
  let nd := Dataspace.ndim obj r
  if nd > 0 then
    match h5call_extent_dims r obj.handle.h_id with
    | .ok ext => ext.2
    | .error _ => []
  else []

/-- Dataspace::size (space.rs lines 163-166): 1 for an empty dims
vector, otherwise the fold of multiplication. -/
def Dataspace.size {α : Type} (obj : Object α) (r : Registry) : Nat :=
  let dims := Dataspace.dims obj r
  if dims.isEmpty then 1 else dims.foldl (fun acc el => acc * el) 1

/-- Dataspace::resizable (space.rs lines 137-139): some maximum extent
equals the unlimited sentinel. -/
def Dataspace.resizable {α : Type} (obj : Object α) (r : Registry) : Bool :=
  (Dataspace.maxdims obj r).any (fun x => x == H5S_UNLIMITED)

/-- The detail value of the dataspace capability (space.rs line 76). -/
inductive DataspaceID
  | mk
deriving DecidableEq

/-- Represents the HDF5 dataspace object. -/
abbrev Dataspace := Object DataspaceID

/-- The ObjectType implementation for DataspaceID (space.rs lines
78-104), including the tuple-style describe renderer. -/
def dataspaceObjectType : ObjectTypeImpl DataspaceID where
  allow_types := .Just .H5I_DATASPACE
  from_id := fun _ _ => .ok .mk
  type_name := "dataspace"
  describe := fun obj r =>
    let dims := String.intercalate ", "
      ((Dataspace.dims obj r).map (fun d => toString d))
    let dims := if Dataspace.ndim obj r = 1 then dims ++ "," else dims
    "(" ++ dims ++ ")"

/-- Dataspace::new (space.rs lines 110-121): current extents from the
shape, maximum extents equal to them unless resizable, in which case
every axis maximum is the unlimited sentinel; then Object::from_id on
the identifier the native creation call returns. -/
def Dataspace.new {α : Type} (D : DimensionImpl α) (d : α)
    (resizable : Bool) (r : Registry) :
    Except String Dataspace × Registry :=
  let dims := D.dims d
  let max_dims := dims.map (fun dim =>
    if resizable then H5S_UNLIMITED else dim)
  match H5Screate_simple r dims max_dims with
  | (.error e, r') => (.error e, r')
  | (.ok sid, r') => Object.from_id dataspaceObjectType sid r'

/-!  Concrete fixtures used to instantiate the theorems.  -/

/-- A concrete registry exercising the theorems: identifier 50 is a user
group, 60 a user 16-bit unsigned integer datatype, 61 a user
string-class datatype, 70 a user dataspace of extent 5 x 6, 71 a user
rank-0 dataspace; identifiers 1..10 are the predefined locked
descriptors as in initRegistry. -/
def testReg : Registry where
  registered := fun id => decide (1 ≤ id ∧ id ≤ 10) || decide (id = 50) ||
    decide (id = 60) || decide (id = 61) || decide (id = 70) ||
    decide (id = 71)
  user := fun id => decide (id = 50) || decide (id = 60) ||
    decide (id = 61) || decide (id = 70) || decide (id = 71)
  refcnt := fun id =>
    if id = 50 ∨ id = 60 ∨ id = 61 ∨ id = 70 ∨ id = 71 then 3
    else if 1 ≤ id ∧ id ≤ 10 then 1 else -1
  id_type := fun id =>
    if id = 50 then .H5I_GROUP
    else if id = 60 ∨ id = 61 then .H5I_DATATYPE
    else if id = 70 ∨ id = 71 then .H5I_DATASPACE
    else if 1 ≤ id ∧ id ≤ 10 then .H5I_DATATYPE
    else .H5I_BADID
  descr := fun id =>
    if id = 60 then intDescr .H5T_ORDER_LE .H5T_SGN_NONE 16 2
    else if id = 61 then ⟨.H5T_STRING, .H5T_ORDER_LE, .H5T_SGN_ERROR, 8, 1, 0⟩
    else predefDescrAt id
  space_extent := fun id =>
    if id = 70 then some ([5, 6], [5, 6])
    else if id = 71 then some ([], []) else none
  next := 100

/-- A capability with a one-of-a-list matcher, exercising the OneOf arm
of the dispatch rule. -/
def testOneOfObjectType : ObjectTypeImpl Unit where
  allow_types := .OneOf [.H5I_GROUP, .H5I_DATASPACE]
  from_id := fun _ _ => .ok ()
  type_name := "test object"

/-- Run to_datatype for two scalar types in sequence from the initial
registry and compare the two resulting datatypes. -/
def eqOfScalars (s t : ScalarType) : Option Bool :=
  match to_datatype s initRegistry with
  | (.ok a, r1) =>
    match to_datatype t r1 with
    | (.ok b, r2) => some (Datatype.eq a b r2)
    | _ => none
  | _ => none

/-- Run to_datatype for a scalar type from the initial registry and
classify the result: the first component is true for Integer and false
for Float, the second is is_signed for an Integer result. -/
def classifyScalar (s : ScalarType) : Option (Bool × Bool) :=
  match to_datatype s initRegistry with
  | (.ok a, r1) =>
    match Datatype.class a r1 with
    | .ok (.Integer dt) => some (true, IntegerDatatype.is_signed dt r1)
    | .ok (.Float _) => some (false, false)
    | .error _ => none
  | _ => none

/-!  Theorems.  -/

/-- Claim C6: the debug rendering of an Object is uniform and total: an
invalid object renders exactly as the fixed invalid-id form using the
static type name of the capability; a valid object with a non-empty
description renders the name and the description; a valid object with an
empty description renders the bare type name. -/
theorem debug_fmt_uniform {α : Type} (T : ObjectTypeImpl α)
    (obj : Object α) (r : Registry) :
    (obj.is_valid r = false →
      Object.debug_fmt T obj r = "<HDF5 " ++ T.type_name ++ ": invalid id>") ∧
    (obj.is_valid r = true → T.describe obj r ≠ "" →
      Object.debug_fmt T obj r =
        "<HDF5 " ++ T.type_name ++ ": " ++ T.describe obj r ++ ">") ∧
    (obj.is_valid r = true → T.describe obj r = "" →
      Object.debug_fmt T obj r = "<HDF5 " ++ T.type_name ++ ">") := by
  refine ⟨?_, ?_, ?_⟩
  · intro h
    simp [Object.debug_fmt, h]
  · intro h hd
    simp [Object.debug_fmt, h, hd]
  · intro h hd
    simp [Object.debug_fmt, h, hd]

/-- Witness for claim C6 at concrete inputs: identifier 999 is not a
user identifier in testReg so the object is invalid; identifier 70 is a
valid dataspace of extent 5 x 6 whose description is non-empty;
identifier 50 is a valid group object rendered under the unit capability
whose description is empty. -/
theorem debug_fmt_uniform_witness :
    Object.debug_fmt unitObjectType ⟨⟨999⟩, ()⟩ testReg =
      "<HDF5 " ++ unitObjectType.type_name ++ ": invalid id>" ∧
    Object.debug_fmt dataspaceObjectType ⟨⟨70⟩, .mk⟩ testReg =
      "<HDF5 " ++ dataspaceObjectType.type_name ++ ": " ++
        dataspaceObjectType.describe ⟨⟨70⟩, .mk⟩ testReg ++ ">" ∧
    Object.debug_fmt unitObjectType ⟨⟨50⟩, ()⟩ testReg =
      "<HDF5 " ++ unitObjectType.type_name ++ ">" :=
  ⟨(debug_fmt_uniform unitObjectType ⟨⟨999⟩, ()⟩ testReg).1 (by decide),
   (debug_fmt_uniform dataspaceObjectType ⟨⟨70⟩, .mk⟩ testReg).2.1
     (by decide) (by decide),
   (debug_fmt_uniform unitObjectType ⟨⟨50⟩, ()⟩ testReg).2.2
     (by decide) rfl⟩

/-- Claim C7: for every Dimension implementation the default size equals
the product of the extents dims returns, and equals 1 when dims is
empty; the scalar extent implementation has rank 1 with that single
extent, the Vec implementation has rank equal to its length, and the
unit shape has rank 0 and size 1. -/
theorem dimension_size_product {α : Type} (D : DimensionImpl α) (a : α) :
    (D.size a = (D.dims a).foldl (fun acc el => acc * el) 1) ∧
    ((D.dims a).isEmpty = true → D.size a = 1) ∧
    (∀ x : Nat, ixDimension.ndim x = 1 ∧ ixDimension.dims x = [x] ∧
      ixDimension.size x = x) ∧
    (∀ v : List Nat, vecDimension.ndim v = v.length ∧
      vecDimension.dims v = v) ∧
    (unitDimension.ndim () = 0 ∧ unitDimension.dims () = [] ∧
      unitDimension.size () = 1) := by
  refine ⟨?_, ?_, ?_, ?_, by simp [unitDimension, DimensionImpl.size]⟩
  · cases h : D.dims a with
    | nil => simp [DimensionImpl.size, h]
    | cons x xs => simp [DimensionImpl.size, h, Nat.one_mul]
  · intro h
    simp [DimensionImpl.size, h]
  · intro x
    refine ⟨rfl, rfl, ?_⟩
    simp [ixDimension, DimensionImpl.size]
  · intro v
    exact ⟨rfl, rfl⟩

/-- Witness for claim C7 at concrete inputs: the pair shape 5 x 6 has
size 30, the product of its extents, and the unit shape has empty dims
and size 1. -/
theorem dimension_size_product_witness :
    (pairDimension.size (5, 6) =
      (pairDimension.dims (5, 6)).foldl (fun acc el => acc * el) 1) ∧
    (unitDimension.size () = 1) ∧
    (ixDimension.dims 7 = [7]) :=
  ⟨(dimension_size_product pairDimension (5, 6)).1,
   (dimension_size_product unitDimension ()).2.1 (by decide),
   ((dimension_size_product ixDimension 7).2.2.1 7).2.1⟩

/-- Claim C5: Object::refcount is total, returning the registry count
when the handle is valid and the count query returns a non-negative
count, and 0 in every other case: an invalid handle, or a negative count
code from the registry (which the h5call wrapper turns into a query
failure). -/
theorem refcount_total {α : Type} (obj : Object α) (r : Registry) :
    (obj.is_valid r = true → 0 ≤ r.refcnt obj.handle.h_id →
      obj.refcount r = (r.refcnt obj.handle.h_id).toNat) ∧
    (obj.is_valid r = false → obj.refcount r = 0) ∧
    (r.refcnt obj.handle.h_id < 0 → obj.refcount r = 0) := by
  refine ⟨?_, ?_, ?_⟩
  · intro hv hnn
    have hv' : is_valid_user_id r obj.handle.h_id = true := hv
    simp [Object.refcount, Object.is_valid, Handle.is_valid, hv',
      h5call_H5Iget_ref, H5Iget_ref, not_lt.mpr hnn, hnn]
  · intro hv
    simp [Object.refcount, hv]
  · intro hneg
    by_cases hv : obj.is_valid r = true
    · have hv' : is_valid_user_id r obj.handle.h_id = true := hv
      simp [Object.refcount, Object.is_valid, Handle.is_valid, hv',
        h5call_H5Iget_ref, H5Iget_ref, hneg]
    · simp [Object.refcount, hv]

/-- Witness for claim C5 at concrete inputs: identifier 50 is a valid
user identifier of testReg with registry count 3, identifier 999 is not
valid, and identifier 20 has a negative count code. -/
theorem refcount_total_witness :
    Object.refcount (⟨⟨50⟩, ()⟩ : Object Unit) testReg = (3 : Int).toNat ∧
    Object.refcount (⟨⟨999⟩, ()⟩ : Object Unit) testReg = 0 ∧
    Object.refcount (⟨⟨20⟩, ()⟩ : Object Unit) testReg = 0 :=
  ⟨(refcount_total (⟨⟨50⟩, ()⟩ : Object Unit) testReg).1 (by decide)
     (by decide),
   (refcount_total (⟨⟨999⟩, ()⟩ : Object Unit) testReg).2.1 (by decide),
   (refcount_total (⟨⟨20⟩, ()⟩ : Object Unit) testReg).2.2 (by decide)⟩

/-- Claim C10: the dataspace attribute queries are total: a failing
native rank query makes ndim 0, a failing extent query (in particular an
identifier the registry does not know) makes dims and maxdims empty with
size 1, and a genuine rank-0 extent produces exactly the same
observations, so the two situations are indistinguishable through these
queries. -/
theorem dataspace_query_defaults {α : Type} (obj : Object α) (r : Registry) :
    ((h5call_extent_ndims r obj.handle.h_id).isOk = false →
      Dataspace.ndim obj r = 0 ∧ Dataspace.dims obj r = [] ∧
      Dataspace.maxdims obj r = [] ∧ Dataspace.size obj r = 1) ∧
    (r.registered obj.handle.h_id = false →
      Dataspace.ndim obj r = 0 ∧ Dataspace.dims obj r = [] ∧
      Dataspace.maxdims obj r = [] ∧ Dataspace.size obj r = 1) ∧
    (∀ mx, r.space_extent obj.handle.h_id = some ([], mx) →
      Dataspace.ndim obj r = 0 ∧ Dataspace.dims obj r = [] ∧
      Dataspace.maxdims obj r = [] ∧ Dataspace.size obj r = 1) := by
  have key : ∀ hfail : (h5call_extent_ndims r obj.handle.h_id).isOk = false,
      Dataspace.ndim obj r = 0 ∧ Dataspace.dims obj r = [] ∧
      Dataspace.maxdims obj r = [] ∧ Dataspace.size obj r = 1 := by
    intro hfail
    have hnd : Dataspace.ndim obj r = 0 := by
      unfold Dataspace.ndim
      cases h : h5call_extent_ndims r obj.handle.h_id with
      | ok v => rw [h] at hfail; simp [Except.isOk, Except.toBool] at hfail
      | error e => rfl
    have hdims : Dataspace.dims obj r = [] := by
      unfold Dataspace.dims
      simp [hnd]
    have hmax : Dataspace.maxdims obj r = [] := by
      unfold Dataspace.maxdims
      simp [hnd]
    exact ⟨hnd, hdims, hmax, by simp [Dataspace.size, hdims]⟩
  refine ⟨key, ?_, ?_⟩
  · intro hreg
    refine key ?_
    simp [h5call_extent_ndims, hreg, Except.isOk, Except.toBool]
  · intro mx hext
    have hnd : Dataspace.ndim obj r = 0 := by
      unfold Dataspace.ndim h5call_extent_ndims
      by_cases hc : 0 < obj.handle.h_id ∧ r.registered obj.handle.h_id = true
      · simp [hc, hext]
      · simp [hc]
    refine ⟨hnd, ?_, ?_, ?_⟩
    · unfold Dataspace.dims
      simp [hnd]
    · unfold Dataspace.maxdims
      simp [hnd]
    · have hdims : Dataspace.dims obj r = [] := by
        unfold Dataspace.dims
        simp [hnd]
      simp [Dataspace.size, hdims]

/-- Witness for claim C10 at concrete inputs: identifier 999 of testReg
is unknown to the registry and identifier 71 is a genuine rank-0
dataspace; both observe rank 0, empty extents and size 1. -/
theorem dataspace_query_defaults_witness :
    (Dataspace.ndim (⟨⟨999⟩, .mk⟩ : Dataspace) testReg = 0 ∧
      Dataspace.dims (⟨⟨999⟩, .mk⟩ : Dataspace) testReg = [] ∧
      Dataspace.maxdims (⟨⟨999⟩, .mk⟩ : Dataspace) testReg = [] ∧
      Dataspace.size (⟨⟨999⟩, .mk⟩ : Dataspace) testReg = 1) ∧
    (Dataspace.ndim (⟨⟨71⟩, .mk⟩ : Dataspace) testReg = 0 ∧
      Dataspace.dims (⟨⟨71⟩, .mk⟩ : Dataspace) testReg = [] ∧
      Dataspace.maxdims (⟨⟨71⟩, .mk⟩ : Dataspace) testReg = [] ∧
      Dataspace.size (⟨⟨71⟩, .mk⟩ : Dataspace) testReg = 1) :=
  ⟨(dataspace_query_defaults (⟨⟨999⟩, .mk⟩ : Dataspace) testReg).2.1
     (by decide),
   (dataspace_query_defaults (⟨⟨71⟩, .mk⟩ : Dataspace) testReg).2.2 []
     (by decide)⟩

/-- Claim C1: Object::from_id obeys the dispatch rule.  For a Just
matcher, a native-class mismatch fails immediately with the message
naming the expected and the actual class, the same result for every
capability constructor (so the constructor is never invoked), and a
match proceeds to the construct block; the OneOf matcher behaves the
same with list membership; the Any matcher performs no pre-check and
goes straight to the construct block, where the capability constructor
decides validity. -/
theorem from_id_dispatch {α : Type} (T : ObjectTypeImpl α) (id : hid_t)
    (r : Registry) :
    (∀ c, T.allow_types = .Just c →
      (get_id_type r id ≠ c →
        Object.from_id T id r =
          (.error (justMismatchMsg T.type_name c (get_id_type r id)), r) ∧
        ∀ f, Object.from_id { T with from_id := f } id r =
          (.error (justMismatchMsg T.type_name c (get_id_type r id)), r)) ∧
      (get_id_type r id = c →
        Object.from_id T id r = Object.construct T id r)) ∧
    (∀ cs, T.allow_types = .OneOf cs →
      (cs.contains (get_id_type r id) = false →
        Object.from_id T id r =
          (.error (oneOfMismatchMsg T.type_name cs (get_id_type r id)), r) ∧
        ∀ f, Object.from_id { T with from_id := f } id r =
          (.error (oneOfMismatchMsg T.type_name cs (get_id_type r id)), r)) ∧
      (cs.contains (get_id_type r id) = true →
        Object.from_id T id r = Object.construct T id r)) ∧
    (T.allow_types = .Any →
      Object.from_id T id r = Object.construct T id r) := by
  obtain ⟨ats, fid, tn, des⟩ := T
  refine ⟨?_, ?_, ?_⟩
  · rintro c rfl
    constructor
    · intro hne
      refine ⟨?_, fun f => ?_⟩ <;> simp [Object.from_id, hne]
    · intro heq
      simp [Object.from_id, heq]
  · rintro cs rfl
    constructor
    · intro hne
      have hne' : ¬ get_id_type r id ∈ cs := by simpa using hne
      refine ⟨?_, fun f => ?_⟩ <;> simp [Object.from_id, hne']
    · intro heq
      have heq' : get_id_type r id ∈ cs := by simpa using heq
      simp [Object.from_id, heq']
  · rintro rfl
    simp [Object.from_id]

/-- Witness for claim C1 at concrete inputs in testReg: identifier 50 is
a group, so the datatype capability (Just) rejects it naming both
classes and the one-of-a-list capability accepts it; identifier 60 is a
datatype, rejected by the one-of-a-list capability; identifier 70 is a
dataspace, accepted by the dataspace capability; the unit capability
(Any) always proceeds to the construct block. -/
theorem from_id_dispatch_witness :
    (Object.from_id datatypeObjectType 50 testReg =
      (.error (justMismatchMsg "datatype" .H5I_DATATYPE .H5I_GROUP),
        testReg)) ∧
    (Object.from_id dataspaceObjectType 70 testReg =
      Object.construct dataspaceObjectType 70 testReg) ∧
    (Object.from_id testOneOfObjectType 60 testReg =
      (.error (oneOfMismatchMsg "test object"
        [.H5I_GROUP, .H5I_DATASPACE] .H5I_DATATYPE), testReg)) ∧
    (Object.from_id testOneOfObjectType 50 testReg =
      Object.construct testOneOfObjectType 50 testReg) ∧
    (Object.from_id unitObjectType 50 testReg =
      Object.construct unitObjectType 50 testReg) := by
  have h1 := (from_id_dispatch datatypeObjectType 50 testReg).1
    .H5I_DATATYPE rfl
  have h2 := (from_id_dispatch dataspaceObjectType 70 testReg).1
    .H5I_DATASPACE rfl
  have h3 := (from_id_dispatch testOneOfObjectType 60 testReg).2.1
    [.H5I_GROUP, .H5I_DATASPACE] rfl
  have h4 := (from_id_dispatch testOneOfObjectType 50 testReg).2.1
    [.H5I_GROUP, .H5I_DATASPACE] rfl
  have h5 := (from_id_dispatch unitObjectType 50 testReg).2.2 rfl
  exact ⟨(h1.1 (by decide)).1, h2.2 (by decide), (h3.1 (by decide)).1,
    h4.2 (by decide), h5⟩

/-- Claim C2: on every error path of Object::from_id (class pre-check
failure, capability constructor failure, or Handle acquisition failure)
no Handle is created and the registry reference counts are unchanged. -/
theorem from_id_no_leak {α : Type} (T : ObjectTypeImpl α) (id : hid_t)
    (r : Registry) (e : String) (r' : Registry)
    (h : Object.from_id T id r = (.error e, r')) :
    ∀ j, r'.refcnt j = r.refcnt j := by
  have hcon : ∀ e' r'', Object.construct T id r = (.error e', r'') →
      r'' = r := by
    intro e' r'' hc
    unfold Object.construct at hc
    split at hc
    · cases hc
      rfl
    · split at hc
      · next e1 r1 heq =>
          cases hc
          unfold Handle.new at heq
          by_cases hv : is_valid_user_id r id = true
          · rw [if_pos hv] at heq
            simp at heq
          · rw [if_neg hv] at heq
            injection heq with h1 h2
            exact h2.symm
      · next handle r1 heq =>
          simp at hc
  unfold Object.from_id at h
  split at h
  · dsimp only at h
    split at h
    · have := hcon e r' h
      subst this
      intro j
      rfl
    · cases h
      intro j
      rfl
  · dsimp only at h
    split at h
    · have := hcon e r' h
      subst this
      intro j
      rfl
    · cases h
      intro j
      rfl
  · have := hcon e r' h
    subst this
    intro j
    rfl

/-- Witness for claim C2 at a concrete input: constructing a datatype
object from the group identifier 50 of testReg fails at the pre-check
and leaves the registry count of identifier 50 unchanged. -/
theorem from_id_no_leak_witness :
    (Object.from_id datatypeObjectType 50 testReg).2.refcnt 50 =
      testReg.refcnt 50 :=
  from_id_no_leak datatypeObjectType 50 testReg
    (justMismatchMsg "datatype" .H5I_DATATYPE .H5I_GROUP) testReg
    rfl 50

/-- Claim C3: DatatypeID::from_id and Datatype::class classify a
datatype identifier as exactly Integer or exactly Float; the no-class
and class-count placeholder tags produce the invalid-class error, every
other class the unsupported-class error naming the actual class, the
two failure messages never coincide and distinct classes give distinct
messages; no class outside integer and float ever classifies
successfully, and Datatype::class agrees with DatatypeID::from_id on
the same identifier. -/
theorem datatype_classification (id : hid_t) (r : Registry) :
    (H5Tget_class r id = .H5T_INTEGER →
      datatypeObjectType.from_id id r = .ok .Integer) ∧
    (H5Tget_class r id = .H5T_FLOAT →
      datatypeObjectType.from_id id r = .ok .Float) ∧
    (H5Tget_class r id = .H5T_NO_CLASS ∨ H5Tget_class r id = .H5T_NCLASSES →
      datatypeObjectType.from_id id r = .error "Invalid datatype class") ∧
    (∀ cls, H5Tget_class r id = cls → cls ≠ .H5T_INTEGER →
      cls ≠ .H5T_FLOAT → cls ≠ .H5T_NO_CLASS → cls ≠ .H5T_NCLASSES →
      datatypeObjectType.from_id id r =
        .error ("Unsupported datatype: " ++ tClassName cls)) ∧
    (∀ d, datatypeObjectType.from_id id r = .ok d →
      H5Tget_class r id = .H5T_INTEGER ∨ H5Tget_class r id = .H5T_FLOAT) ∧
    (∀ cls : H5T_class_t,
      "Unsupported datatype: " ++ tClassName cls ≠
        "Invalid datatype class") ∧
    (∀ c c' : H5T_class_t, tClassName c = tClassName c' → c = c') ∧
    (∀ dt : Datatype, dt.handle.h_id = id →
      Datatype.class dt r = Except.map (fun did =>
        match did with
        | DatatypeID.Integer => DatatypeClass.Integer ⟨dt.handle, .mk⟩
        | DatatypeID.Float => DatatypeClass.Float ⟨dt.handle, .mk⟩)
        (datatypeObjectType.from_id id r)) := by
  refine ⟨?_, ?_, ?_, ?_, ?_, ?_, ?_, ?_⟩
  · intro h
    simp [datatypeObjectType, h]
  · intro h
    simp [datatypeObjectType, h]
  · rintro (h | h) <;> simp [datatypeObjectType, h]
  · intro cls h h1 h2 h3 h4
    rw [show datatypeObjectType.from_id id r = (match H5Tget_class r id with
      | .H5T_INTEGER => Except.ok DatatypeID.Integer
      | .H5T_FLOAT => Except.ok DatatypeID.Float
      | .H5T_NO_CLASS => Except.error "Invalid datatype class"
      | .H5T_NCLASSES => Except.error "Invalid datatype class"
      | c => Except.error ("Unsupported datatype: " ++ tClassName c))
      from rfl, h]
    cases cls <;> first
      | rfl
      | exact absurd rfl h1
      | exact absurd rfl h2
      | exact absurd rfl h3
      | exact absurd rfl h4
  · intro d h
    rcases hc : H5Tget_class r id <;>
      simp [datatypeObjectType, hc] at h ⊢
  · intro cls
    cases cls <;> decide
  · intro c c'
    cases c <;> cases c' <;> decide
  · rintro dt rfl
    rcases hc : H5Tget_class r dt.handle.h_id <;>
      simp [Datatype.class, datatypeObjectType, hc, Except.map]

/-- Witness for claim C3 at concrete inputs in testReg: identifier 60
has integer class and classifies as Integer; identifier 61 has string
class and fails with the unsupported-class message; identifier 999 is
unknown so the native class query reports no class and from_id fails
with the invalid-class message; Datatype::class agrees at 60. -/
theorem datatype_classification_witness :
    datatypeObjectType.from_id 60 testReg = .ok .Integer ∧
    datatypeObjectType.from_id 61 testReg =
      .error ("Unsupported datatype: " ++ tClassName .H5T_STRING) ∧
    datatypeObjectType.from_id 999 testReg =
      .error "Invalid datatype class" ∧
    Datatype.class ⟨⟨60⟩, .Integer⟩ testReg =
      .ok (.Integer ⟨⟨60⟩, .mk⟩) :=
  ⟨(datatype_classification 60 testReg).1 (by decide),
   (datatype_classification 61 testReg).2.2.2.1 .H5T_STRING (by decide)
     (by decide) (by decide) (by decide) (by decide),
   (datatype_classification 999 testReg).2.2.1 (Or.inl (by decide)),
   by
    have h := (datatype_classification 60 testReg).2.2.2.2.2.2.2
      ⟨⟨60⟩, .Integer⟩ rfl
    rw [h, (datatype_classification 60 testReg).1 (by decide)]
    rfl⟩

/-- Counterexample to claim C4 as stated: bool and u8 are two different
native scalar types, yet the two datatypes their to_datatype calls
produce compare equal, because the impl_atomic table maps both to the
same predefined unsigned 8-bit descriptor. -/
theorem to_datatype_distinct_cex :
    ScalarType.bool ≠ ScalarType.u8 ∧
    eqOfScalars ScalarType.bool ScalarType.u8 = some true :=
  ⟨by decide, by rfl⟩

/-- Claim C4 (amended): Datatype equality is native logical type
equality, not identifier equality, defaulting to not-equal when the
native equivalence check fails; datatypes from two to_datatype calls of
scalar types compare equal exactly when the two types copy the same
predefined descriptor, so two calls for the same type give equal
datatypes and types with distinct predefined descriptors give unequal
ones (bool and u8, usize and u64, isize and i64 share descriptors and
give equal datatypes). -/
theorem to_datatype_eq_iff_same_descr :
    (∀ s t : ScalarType, eqOfScalars s t =
      some (decide (initRegistry.descr (predefLE s) =
        initRegistry.descr (predefLE t)))) ∧
    (∀ s : ScalarType, eqOfScalars s s = some true) ∧
    (∀ (a b : Datatype) (r : Registry),
      (h5call_H5Tequal r a.handle.h_id b.handle.h_id).isOk = false →
      Datatype.eq a b r = false) := by
  refine ⟨?_, ?_, ?_⟩
  · intro s t
    cases s <;> cases t <;> rfl
  · intro s
    cases s <;> rfl
  · intro a b r h
    unfold Datatype.eq
    cases hq : h5call_H5Tequal r a.handle.h_id b.handle.h_id with
    | ok v =>
      rw [hq] at h
      simp [Except.isOk, Except.toBool] at h
    | error e =>
      rfl

/-- Witness for claim C4 (amended) at concrete inputs: u32 against u32
compares equal, u32 against u16 unequal, and the equality of two
datatype objects with unregistered identifiers defaults to false since
the native check fails there. -/
theorem to_datatype_eq_iff_same_descr_witness :
    eqOfScalars ScalarType.u32 ScalarType.u32 = some true ∧
    eqOfScalars ScalarType.u32 ScalarType.u16 =
      some (decide (initRegistry.descr (predefLE ScalarType.u32) =
        initRegistry.descr (predefLE ScalarType.u16))) ∧
    Datatype.eq ⟨⟨-5⟩, .Integer⟩ ⟨⟨-6⟩, .Float⟩ initRegistry = false :=
  ⟨(to_datatype_eq_iff_same_descr.2.1 ScalarType.u32),
   (to_datatype_eq_iff_same_descr.1 ScalarType.u32 ScalarType.u16),
   (to_datatype_eq_iff_same_descr.2.2 ⟨⟨-5⟩, .Integer⟩ ⟨⟨-6⟩, .Float⟩
     initRegistry (by rfl))⟩

/-- Claim C9: bool::to_datatype copies the same predefined unsigned
8-bit little-endian descriptor as u8::to_datatype, so the two datatypes
compare equal in either order, and both classify as Integer with
is_signed false. -/
theorem bool_u8_same_datatype :
    predefLE ScalarType.bool = predefLE ScalarType.u8 ∧
    predefLE ScalarType.bool = H5T_STD_U8LE ∧
    eqOfScalars ScalarType.bool ScalarType.u8 = some true ∧
    eqOfScalars ScalarType.u8 ScalarType.bool = some true ∧
    classifyScalar ScalarType.bool = some (true, false) ∧
    classifyScalar ScalarType.u8 = some (true, false) :=
  ⟨rfl, rfl, rfl, rfl, rfl, rfl⟩

/-- Claim C8: Dataspace::new builds a dataspace whose current extents
are the dims of the shape; the maximum extents equal the current ones
when resizable is false and are the unlimited sentinel on every axis
when it is true; construction fails with the native error whenever any
current extent is itself the unlimited sentinel; and resizable() is
subsequently true exactly when some axis maximum equals the sentinel. -/
theorem dataspace_new_spec {α : Type} (D : DimensionImpl α) (a : α)
    (rz : Bool) (r : Registry) (hnext : 0 < r.next) :
    ((∀ d ∈ D.dims a, d ≠ H5S_UNLIMITED) →
      ∃ obj r',
        Dataspace.new D a rz r = (.ok obj, r') ∧
        Dataspace.dims obj r' = D.dims a ∧
        Dataspace.maxdims obj r' =
          (if rz then (D.dims a).map (fun _ => H5S_UNLIMITED)
           else D.dims a) ∧
        (Dataspace.resizable obj r' = true ↔
          ∃ m ∈ Dataspace.maxdims obj r', m = H5S_UNLIMITED)) ∧
    ((∃ d ∈ D.dims a, d = H5S_UNLIMITED) →
      Dataspace.new D a rz r =
        (.error "current dimension must have a specific size", r)) := by
  constructor
  · intro hno
    have hany : ((D.dims a).any (fun d => decide (d = H5S_UNLIMITED)))
        = false := by
      rw [List.any_eq_false]
      intro d hd
      simpa using hno d hd
    refine ⟨⟨⟨r.next⟩, DataspaceID.mk⟩,
      (Registry.alloc r .H5I_DATASPACE noDescr
        (some (D.dims a, (D.dims a).map (fun dim =>
          if rz then H5S_UNLIMITED else dim)))).2.increfAt r.next,
      ?_, ?_, ?_, ?_⟩
    · simp [Dataspace.new, H5Screate_simple, hany, Object.from_id,
        get_id_type, Registry.alloc, upd, Object.construct,
        dataspaceObjectType, Handle.new, is_valid_user_id, hnext]
    · have hreg : ((Registry.alloc r .H5I_DATASPACE noDescr
          (some (D.dims a, (D.dims a).map (fun dim =>
            if rz then H5S_UNLIMITED else dim)))).2.increfAt
          r.next).registered r.next = true := by
        simp [Registry.increfAt, Registry.alloc, upd]
      have hsp : ((Registry.alloc r .H5I_DATASPACE noDescr
          (some (D.dims a, (D.dims a).map (fun dim =>
            if rz then H5S_UNLIMITED else dim)))).2.increfAt
          r.next).space_extent r.next =
          some (D.dims a, (D.dims a).map (fun dim =>
            if rz then H5S_UNLIMITED else dim)) := by
        simp [Registry.increfAt, Registry.alloc, upd]
      have hnd : Dataspace.ndim (⟨⟨r.next⟩, DataspaceID.mk⟩ : Dataspace)
          ((Registry.alloc r .H5I_DATASPACE noDescr
            (some (D.dims a, (D.dims a).map (fun dim =>
              if rz then H5S_UNLIMITED else dim)))).2.increfAt r.next) =
          (D.dims a).length := by
        simp [Dataspace.ndim, h5call_extent_ndims, hreg, hsp, hnext]
      unfold Dataspace.dims
      rw [hnd]
      by_cases hl0 : (D.dims a).length > 0
      · simp [hl0, h5call_extent_dims, hreg, hsp, hnext]
      · have hl : D.dims a = [] := List.length_eq_zero.mp (by omega)
        simp [hl0, hl]
    · have hreg : ((Registry.alloc r .H5I_DATASPACE noDescr
          (some (D.dims a, (D.dims a).map (fun dim =>
            if rz then H5S_UNLIMITED else dim)))).2.increfAt
          r.next).registered r.next = true := by
        simp [Registry.increfAt, Registry.alloc, upd]
      have hsp : ((Registry.alloc r .H5I_DATASPACE noDescr
          (some (D.dims a, (D.dims a).map (fun dim =>
            if rz then H5S_UNLIMITED else dim)))).2.increfAt
          r.next).space_extent r.next =
          some (D.dims a, (D.dims a).map (fun dim =>
            if rz then H5S_UNLIMITED else dim)) := by
        simp [Registry.increfAt, Registry.alloc, upd]
      have hnd : Dataspace.ndim (⟨⟨r.next⟩, DataspaceID.mk⟩ : Dataspace)
          ((Registry.alloc r .H5I_DATASPACE noDescr
            (some (D.dims a, (D.dims a).map (fun dim =>
              if rz then H5S_UNLIMITED else dim)))).2.increfAt r.next) =
          (D.dims a).length := by
        simp [Dataspace.ndim, h5call_extent_ndims, hreg, hsp, hnext]
      unfold Dataspace.maxdims
      rw [hnd]
      by_cases hl0 : (D.dims a).length > 0
      · rw [if_pos hl0]
        have : h5call_extent_dims
            ((Registry.alloc r .H5I_DATASPACE noDescr
              (some (D.dims a, (D.dims a).map (fun dim =>
                if rz then H5S_UNLIMITED else dim)))).2.increfAt r.next)
            r.next = .ok (D.dims a, (D.dims a).map (fun dim =>
              if rz then H5S_UNLIMITED else dim)) := by
          simp [h5call_extent_dims, hreg, hsp, hnext]
        rw [this]
        cases rz <;> simp
      · have hl : D.dims a = [] := List.length_eq_zero.mp (by omega)
        rw [if_neg hl0]
        cases rz <;> simp [hl]
    · unfold Dataspace.resizable
      rw [List.any_eq_true]
      constructor
      · rintro ⟨m, hm, hmu⟩
        exact ⟨m, hm, by simpa using hmu⟩
      · rintro ⟨m, hm, hmu⟩
        exact ⟨m, hm, by simpa using hmu⟩
  · rintro ⟨d, hd, hdu⟩
    have hany : ((D.dims a).any (fun d => decide (d = H5S_UNLIMITED)))
        = true :=
      List.any_eq_true.mpr ⟨d, hd, by simpa using hdu⟩
    simp [Dataspace.new, H5Screate_simple, hany]

/-- Witness for claim C8 at concrete inputs: the 5 x 6 pair shape with
resizable true succeeds from the initial registry and observes the
claimed extents, while a scalar shape whose extent is the unlimited
sentinel fails with the native message. -/
theorem dataspace_new_spec_witness :
    (∃ obj r',
      Dataspace.new pairDimension (5, 6) true initRegistry =
        (.ok obj, r') ∧
      Dataspace.dims obj r' = pairDimension.dims (5, 6) ∧
      Dataspace.maxdims obj r' =
        (if true then (pairDimension.dims (5, 6)).map
          (fun _ => H5S_UNLIMITED) else pairDimension.dims (5, 6)) ∧
      (Dataspace.resizable obj r' = true ↔
        ∃ m ∈ Dataspace.maxdims obj r', m = H5S_UNLIMITED)) ∧
    Dataspace.new ixDimension H5S_UNLIMITED false initRegistry =
      (.error "current dimension must have a specific size",
        initRegistry) :=
  ⟨(dataspace_new_spec pairDimension (5, 6) true initRegistry
      (by decide)).1 (by decide),
   (dataspace_new_spec ixDimension H5S_UNLIMITED false initRegistry
      (by decide)).2 ⟨H5S_UNLIMITED, by simp [ixDimension], rfl⟩⟩

end Hdf5
